import Mathlib

/-!
Verification of the Crop Profitability Prediction Engine of the
smart-farm-ai repository.

The engine appears twice in the sources:

* `app.py` — `train_prediction_model` (pandas `get_dummies` encoding, an
  unseeded `RandomForestRegressor(n_estimators=100)`) together with the
  inline prediction / recommendation blocks of `main`'s "AI Projections"
  tab (lines 196–247);
* `Famy.py` (the "Farmtest 2" half) — `prepare_model` (a sklearn
  `Pipeline` of `OneHotEncoder(handle_unknown='ignore')` and
  `RandomForestRegressor(n_estimators=50, random_state=42)`) together
  with the inline prediction / recommendation blocks of its tab 3.

Both variants are embedded below.  Monetary amounts and derived features
are rationals (`Rat`); calendar dates are day numbers (`Int`); a pandas
`NaT`/`NaN` cell is `Option.none`.  The learned forest itself is the
output of an oracle `learn` argument standing for the sklearn fitting
routine; everything around it (guards, feature construction, schema,
error paths, the mutation of the caller's frame) follows the source.
-/

set_option maxRecDepth 4000

namespace SmartFarm

/-- One row of the `crop_cycles` table joined with its `farm_areas` row,
as read by the engine (`pd.read_sql` join in both `main` functions).
`harvestDate` is nullable in the schema; a missing value is `none`. -/
structure CropCycleRecord where
  areaId : Int
  cropType : String
  startDate : Int
  harvestDate : Option Int
  seedCost : Rat
  fertilizerCost : Rat
  laborCost : Rat
  equipmentCost : Rat
  otherCosts : Rat
  totalRevenue : Rat
deriving DecidableEq

/-- A caller-supplied pandas DataFrame of records: the rows plus the list
of derived columns that have been added to the frame in place (fresh from
`read_sql` this list is empty).  Column assignment in pandas mutates the
caller's object, which this state component makes explicit. -/
structure DF where
  recs : List CropCycleRecord
  extraCols : List String
deriving DecidableEq

/-- The hypothetical scenario of the prediction form: area, crop type,
expected duration and estimated total cost. -/
structure Scenario where
  areaId : Int
  cropType : String
  durationDays : Rat
  totalCost : Rat
deriving DecidableEq

/-- Duration in whole days, `app.py` line 42 / `Famy.py` line 205:
`(pd.to_datetime(df['harvest_date']) - pd.to_datetime(df['start_date'])).dt.days`.
A missing harvest date gives `NaT`, hence `none`. -/
def duration_days (r : CropCycleRecord) : Option Int :=
  r.harvestDate.map (fun h => h - r.startDate)

/-- Sum of the five cost columns, `app.py` line 43 / `Famy.py` line 206. -/
def total_cost (r : CropCycleRecord) : Rat :=
  r.seedCost + r.fertilizerCost + r.laborCost + r.equipmentCost + r.otherCosts

/-- Training target, `app.py` line 44 / `Famy.py` line 207:
`df['profit'] = df['total_revenue'] - df['total_cost']`. -/
def profit (r : CropCycleRecord) : Rat :=
  r.totalRevenue - total_cost r

/-- Distinct values of a list in first-observed order, the semantics of
`pandas.Series.unique()`. -/
def uniques {α : Type} [DecidableEq α] (xs : List α) : List α :=
  xs.foldl (fun acc x => if x ∈ acc then acc else acc ++ [x]) []

/-- `df['crop_type'].unique()`: distinct crop types in first-observed
order. -/
def cropTypesInOrder (recs : List CropCycleRecord) : List String :=
  uniques (recs.map (fun r => r.cropType))

/-- Lexicographic strict comparison of character lists by code point,
the ordering Python's `sorted` uses on strings. -/
def charListLt : List Char → List Char → Bool
  | [], [] => false
  | [], _ :: _ => true
  | _ :: _, [] => false
  | a :: as, b :: bs =>
    if a.val < b.val then true
    else if b.val < a.val then false
    else charListLt as bs

/-- Code-point lexicographic `a ≤ b` on strings. -/
def strLe (a b : String) : Bool := !(charListLt b.data a.data)

/-- The same comparison as a decidable relation, for `insertionSort`. -/
def strLeP (a b : String) : Prop := strLe a b = true

instance : DecidableRel strLeP :=
  fun a b => inferInstanceAs (Decidable (strLe a b = true))

/-- The distinct crop types sorted lexicographically: `pd.get_dummies`
(and `OneHotEncoder.fit`) order their category columns by sorted value,
not by first observation. -/
def sortedCropTypes (recs : List CropCycleRecord) : List String :=
  List.insertionSort strLeP (cropTypesInOrder recs)

/-- The indicator column names produced by
`pd.get_dummies(X, columns=['crop_type'])` in `app.py` line 48, in their
sorted-category order. -/
def dummyColumns (recs : List CropCycleRecord) : List String :=
  (sortedCropTypes recs).map (fun c => "crop_type_" ++ c)

/-- Column order of the training feature table of `app.py` lines 47–48:
the untouched numeric columns followed by the sorted indicator columns. -/
def featureColumnsApp (recs : List CropCycleRecord) : List String :=
  ["area_id", "duration_days", "total_cost"] ++ dummyColumns recs

/-- One feature row of the `app.py` training table: `area_id`,
`duration_days` (possibly `NaN`), `total_cost`, then one 0/1 indicator
per sorted crop type. -/
def featureRowApp (sortedCrops : List String) (r : CropCycleRecord) : List (Option Rat) :=
  [some (r.areaId : Rat), (duration_days r).map (fun d => (d : Rat)), some (total_cost r)]
    ++ sortedCrops.map (fun c => some (if r.cropType = c then (1 : Rat) else 0))

/-- The feature table `X` of `app.py` lines 47–48: one row per input
record, nothing dropped. -/
def trainX (recs : List CropCycleRecord) : List (List (Option Rat)) :=
  recs.map (featureRowApp (sortedCropTypes recs))

/-- The target vector `y = df['profit']` of `app.py` line 49: one profit
per input record, in input order. -/
def trainY (recs : List CropCycleRecord) : List Rat :=
  recs.map profit

/-- A matrix contains a `NaN` cell.  `sklearn`'s estimators reject such
input with a `ValueError` at `fit` time. -/
def hasNaN (X : List (List (Option Rat))) : Bool :=
  X.any (fun row => row.any (fun c => c.isNone))

/-- A fitted sklearn regression tree.  An inner node routes a feature row
left when `row[featIdx] <= threshold`; a leaf stores the multiset of
training-target values routed to it and predicts their mean (modelled
from the sklearn `DecisionTreeRegressor` semantics: each leaf's value is
the mean of the training samples it received). -/
inductive DTree where
  | leaf (samples : List Rat)
  | node (featIdx : Nat) (threshold : Rat) (left : DTree) (right : DTree)
deriving DecidableEq

/-- The value a regression-tree leaf predicts: the mean of its samples. -/
def leafValue (samples : List Rat) : Rat :=
  samples.sum / (samples.length : Rat)

/-- Evaluate one fitted tree on a feature row. -/
def DTree.eval (row : List Rat) : DTree → Rat
  | .leaf s => leafValue s
  | .node i th l r => if row.getD i 0 ≤ th then l.eval row else r.eval row

/-- A `RandomForestRegressor` prediction: the mean of the individual
trees' predictions. -/
def forestPredict (f : List DTree) (row : List Rat) : Rat :=
  (f.map (DTree.eval row)).sum / (f.length : Rat)

/-- The constructor arguments of the estimator, as written in the two
sources.  `randomState = none` means no `random_state` was passed and the
estimator draws from the ambient global random state. -/
structure RFConfig where
  nEstimators : Nat
  randomState : Option Nat
deriving DecidableEq

/-- `app.py` line 52: `RandomForestRegressor(n_estimators=100)` — no seed. -/
def appRFConfig : RFConfig := { nEstimators := 100, randomState := none }

/-- `Famy.py` line 219:
`RandomForestRegressor(n_estimators=50, random_state=42)`. -/
def famyRFConfig : RFConfig := { nEstimators := 50, randomState := some 42 }

/-- Failure values of the two fitting routines.  `insufficientData`
models the explicit guard in `Famy.py`'s `prepare_model` (lines 202–203,
a bare `return None` that the caller answers with its "need at least 2
crop types" warning); `fitCrash` models the `except` branch around the
estimator fit (`app.py` lines 55–56, `Famy.py` lines 228–230), reached in
particular when `model.fit` raises on `NaN` features or on an empty
table. -/
inductive FitError where
  | insufficientData
  | fitCrash
deriving DecidableEq

/-- The model returned by `app.py`'s `train_prediction_model`: the fitted
forest plus the feature-table column order it was fitted against. -/
structure AppModel where
  featureNames : List String
  forest : List DTree
deriving DecidableEq

/-- The oracle standing for the sklearn fitting routine: from a seed and
the (encoded) training matrix and targets it returns the fitted forest.
The learning algorithm itself is outside the repository; everything the
claims inspect about it is stated as hypotheses on its output. -/
abbrev Learner : Type :=
  Nat → List (List (Option Rat)) → List Rat → List DTree

/-- `app.py` lines 39–56, `train_prediction_model(df)`.  The derived
columns are assigned into the caller's frame first (lines 42–44 mutate
`df` in place), then `X`/`y` are built and the estimator is fitted inside
a bare `try`/`except` that turns any failure into `None`.  The function
has no crop-type guard of its own (its caller checks
`len(df['crop_type'].unique()) > 1` before calling, `app.py` line 181);
the estimator is constructed without `random_state`, so the fit consumes
the ambient `entropy`. -/
def train_prediction_model (learn : Learner) (entropy : Nat) (df : DF) :
    Except FitError AppModel × DF :=
  let df' : DF := { df with extraCols := df.extraCols ++ ["duration_days", "total_cost", "profit"] }
  if df.recs = [] ∨ hasNaN (trainX df.recs) then
    (.error .fitCrash, df')
  else
    (.ok { featureNames := featureColumnsApp df.recs
           forest := learn entropy (trainX df.recs) (trainY df.recs) }, df')

/-- The model returned by `Famy.py`'s `prepare_model`: the fitted forest
plus the frozen `OneHotEncoder` categories (the sorted distinct crop
types seen at fit time). -/
structure FamyModel where
  cats : List String
  forest : List DTree
deriving DecidableEq

/-- One encoded row of the `Famy.py` pipeline: the `ColumnTransformer`
puts the `OneHotEncoder` output (one 0/1 column per sorted category)
first, then passes `area_id`, `duration`, `total_cost` through in their
original order. -/
def pipelineTrainRow (cats : List String) (r : CropCycleRecord) : List (Option Rat) :=
  cats.map (fun c => some (if r.cropType = c then (1 : Rat) else 0))
    ++ [some (r.areaId : Rat), (duration_days r).map (fun d => (d : Rat)), some (total_cost r)]

/-- The encoded training matrix of the `Famy.py` pipeline. -/
def famyTrainX (recs : List CropCycleRecord) : List (List (Option Rat)) :=
  recs.map (pipelineTrainRow (sortedCropTypes recs))

/-- `Famy.py` lines 200–230, `prepare_model(df)`.  The guard
`if df.empty or len(df['crop_type'].unique()) < 2: return None` runs
before anything else (so the guard path leaves the caller's frame
untouched); then the derived columns are assigned into the frame, the
pipeline is built with `random_state=42` (so the ambient `entropy` is
ignored and the seed `42` is handed to the learner), and `model.fit`
raises — caught by the `except` branch — when the features contain `NaN`
or the table is empty. -/
def prepare_model (learn : Learner) (_entropy : Nat) (df : DF) :
    Except FitError FamyModel × DF :=
  if df.recs = [] ∨ (cropTypesInOrder df.recs).length < 2 then
    (.error .insufficientData, df)
  else
    let df' : DF := { df with extraCols := df.extraCols ++ ["duration", "total_cost", "profit"] }
    if hasNaN (famyTrainX df.recs) then
      (.error .fitCrash, df')
    else
      (.ok { cats := sortedCropTypes df.recs
             forest := learn 42 (famyTrainX df.recs) (trainY df.recs) }, df')

/-- Column names of the single-row frame the `app.py` prediction form
builds (lines 199–210): `get_dummies` turns the one `crop_type` value
into its own indicator column, and the back-fill loop then appends a zero
column for every training crop type that is still missing, in
first-observed (`unique()`) order. -/
def scenarioColumnsApp (uniqCrops : List String) (s : Scenario) : List String :=
  ["area_id", "duration_days", "total_cost", "crop_type_" ++ s.cropType]
    ++ (uniqCrops.filter (fun c => ¬ c = s.cropType)).map (fun c => "crop_type_" ++ c)

/-- The values of that single-row frame, in the same column order: the
scenario's own indicator is 1, every back-filled indicator is 0. -/
def scenarioValuesApp (uniqCrops : List String) (s : Scenario) : List Rat :=
  [(s.areaId : Rat), s.durationDays, s.totalCost, 1]
    ++ (uniqCrops.filter (fun c => ¬ c = s.cropType)).map (fun _ => (0 : Rat))

/-- Failure value of the `app.py` prediction handler.  `modelNotTrained`
models the `AttributeError` raised by `model.predict` when
`train_prediction_model` returned `None` (no trained model exists); the
handler's `except` turns it into the "Prediction failed" message
(`app.py` lines 196–224). -/
inductive PredictFailure where
  | modelNotTrained
deriving DecidableEq

/-- The `app.py` "Predict Profit" handler (lines 196–214): build the
scenario frame, then evaluate the estimator on it.  No validation of the
scenario's fields happens anywhere on this path; when no model exists the
attempt fails. -/
def predict_profit (model? : Option AppModel) (uniqCrops : List String) (s : Scenario) :
    Except PredictFailure Rat :=
  match model? with
  | none => .error .modelNotTrained
  | some m => .ok (forestPredict m.forest (scenarioValuesApp uniqCrops s))

/-- The encoded row the `Famy.py` pipeline builds for a scenario at
predict time: `OneHotEncoder(handle_unknown='ignore')` sets the indicator
of the scenario's crop type if it is among the frozen categories and
leaves every indicator 0 for an unknown crop type; the numeric columns
pass through in their fixed order. -/
def pipelineRow (cats : List String) (s : Scenario) : List Rat :=
  cats.map (fun c => if s.cropType = c then (1 : Rat) else 0)
    ++ [(s.areaId : Rat), s.durationDays, s.totalCost]

/-- The `Famy.py` prediction path: evaluate the fitted forest on the
pipeline-encoded scenario row.  Again no field validation occurs. -/
def predictPipeline (m : FamyModel) (s : Scenario) : Rat :=
  forestPredict m.forest (pipelineRow m.cats s)

/-- `pandas.Series.mode()[0]`: among the values of maximal multiplicity,
the smallest (`mode()` returns the maximisers sorted ascending).  The
default 0 for an empty list is unreachable in the engine (recommendation
only runs after a successful fit on a nonempty table). -/
def modeVal (xs : List Int) : Int :=
  let cands := List.insertionSort (fun a b : Int => a ≤ b) (uniques xs)
  let maxCount := (cands.map (fun c => xs.count c)).foldr max 0
  ((cands.filter (fun c => xs.count c = maxCount)).headD 0)

/-- `pandas.Series.median()` (with its default `skipna` the input here is
already the list of non-`NaN` values): middle element of the sorted
values, or the mean of the two middle elements for an even count.  The
default 0 for an empty list is unreachable in the engine. -/
def medianQ (xs : List Rat) : Rat :=
  let s := List.insertionSort (fun a b : Rat => a ≤ b) xs
  let n := s.length
  if n = 0 then 0
  else if n % 2 = 1 then s.getD (n / 2) 0
  else (s.getD (n / 2 - 1) 0 + s.getD (n / 2) 0) / 2

/-- The canonical "typical" scenario of the recommendation loop
(`app.py` lines 231–236 / `Famy.py` lines 380–385): most frequent area,
median duration, median total cost, and the crop under evaluation. -/
def canonicalScenario (recs : List CropCycleRecord) (crop : String) : Scenario :=
  { areaId := modeVal (recs.map (fun r => r.areaId))
    cropType := crop
    durationDays := medianQ (recs.filterMap (fun r => (duration_days r).map (fun d => (d : Rat))))
    totalCost := medianQ (recs.map total_cost) }

/-- The per-crop evaluations of the recommendation loop, in
first-observed crop order (`for crop in df['crop_type'].unique()`). -/
def cropEvaluations (m : FamyModel) (recs : List CropCycleRecord) : List (String × Rat) :=
  (cropTypesInOrder recs).map (fun c => (c, predictPipeline m (canonicalScenario recs c)))

/-- Comparison by predicted profit, the sort key of
`sort_values('Predicted Profit', ...)`. -/
def byPredictedProfit : (String × Rat) → (String × Rat) → Prop :=
  fun a b => a.2 ≤ b.2

instance : DecidableRel byPredictedProfit :=
  fun a b => inferInstanceAs (Decidable (a.2 ≤ b.2))

instance : IsTotal (String × Rat) byPredictedProfit :=
  ⟨fun a b => le_total a.2 b.2⟩

instance : IsTrans (String × Rat) byPredictedProfit :=
  ⟨fun _ _ _ hab hbc => le_trans hab hbc⟩

/-- `DataFrame.sort_values(key, ascending=False)`: pandas `nargsort`
reverses the array before taking the ascending `argsort` and reverses the
resulting indexer after (its stable-descending construction) — on lists
of items this is reverse, stable ascending sort, reverse again.  The two
reversals cancel on runs of equal keys, so equal keys keep their original
relative order; the underlying ascending sort is stable here (numpy's
quicksort falls back to an insertion sort on arrays this small), modelled
by `insertionSort`. -/
def pandasSortDesc (xs : List (String × Rat)) : List (String × Rat) :=
  (List.insertionSort byPredictedProfit xs.reverse).reverse

/-- The "Optimal Crop Recommendation" block (`app.py` lines 228–247 /
`Famy.py` lines 376–394): evaluate every first-observed crop type on the
canonical scenario and sort descending by predicted profit. -/
def recommend_crops (m : FamyModel) (recs : List CropCycleRecord) : List (String × Rat) :=
  pandasSortDesc (cropEvaluations m recs)

/-- The realizability constraint sklearn's fitting places on a regression
tree: every leaf holds a nonempty batch of samples, all drawn from the
training-target list `y` (bootstrap resampling draws from `y` with
replacement, so each leaf's batch is a nonempty multiset over `y`'s
values). -/
def leafSamplesOK (y : List Rat) : DTree → Prop
  | .leaf s => s ≠ [] ∧ ∀ v ∈ s, v ∈ y
  | .node _ _ l r => leafSamplesOK y l ∧ leafSamplesOK y r

/-- Decision procedure for `leafSamplesOK`. -/
def leafSamplesOKDec (y : List Rat) : (t : DTree) → Decidable (leafSamplesOK y t)
  | .leaf s => inferInstanceAs (Decidable (s ≠ [] ∧ ∀ v ∈ s, v ∈ y))
  | .node _ _ l r =>
    @instDecidableAnd _ _ (leafSamplesOKDec y l) (leafSamplesOKDec y r)

instance (y : List Rat) (t : DTree) : Decidable (leafSamplesOK y t) :=
  leafSamplesOKDec y t

/-! Concrete inputs used by the witness and counterexample theorems.
`exR1`/`exR2`/`exR3` are the three records of the spec's §8 test vector:
(area 1, Wheat, duration 90, total cost 500, profit 200),
(area 1, Corn, duration 100, total cost 600, profit 150),
(area 1, Wheat, duration 95, total cost 550, profit 250). -/

/-- Wheat record: duration 90, total cost 500, revenue 700, profit 200. -/
def exR1 : CropCycleRecord :=
  { areaId := 1, cropType := "Wheat", startDate := 0, harvestDate := some 90
    seedCost := 500, fertilizerCost := 0, laborCost := 0, equipmentCost := 0
    otherCosts := 0, totalRevenue := 700 }

/-- Corn record: duration 100, total cost 600, revenue 750, profit 150. -/
def exR2 : CropCycleRecord :=
  { areaId := 1, cropType := "Corn", startDate := 0, harvestDate := some 100
    seedCost := 600, fertilizerCost := 0, laborCost := 0, equipmentCost := 0
    otherCosts := 0, totalRevenue := 750 }

/-- Wheat record: duration 95, total cost 550, revenue 800, profit 250. -/
def exR3 : CropCycleRecord :=
  { areaId := 1, cropType := "Wheat", startDate := 0, harvestDate := some 95
    seedCost := 550, fertilizerCost := 0, laborCost := 0, equipmentCost := 0
    otherCosts := 0, totalRevenue := 800 }

/-- The spec's three-record training set. -/
def exRecords : List CropCycleRecord := [exR1, exR2, exR3]

/-- A Corn record with no harvest date (open-ended cycle): `NaT` harvest,
hence `NaN` duration. -/
def exRNoHarvest : CropCycleRecord :=
  { areaId := 1, cropType := "Corn", startDate := 0, harvestDate := none
    seedCost := 600, fertilizerCost := 0, laborCost := 0, equipmentCost := 0
    otherCosts := 0, totalRevenue := 750 }

/-- Three records, one of which lacks a harvest date. -/
def exMixedRecords : List CropCycleRecord := [exR1, exRNoHarvest, exR3]

/-- A Wheat record with no harvest date. -/
def exRNoHarvestW : CropCycleRecord :=
  { areaId := 1, cropType := "Wheat", startDate := 0, harvestDate := none
    seedCost := 500, fertilizerCost := 0, laborCost := 0, equipmentCost := 0
    otherCosts := 0, totalRevenue := 700 }

/-- A frame with two distinct crop types but zero usable rows: every
record lacks a harvest date. -/
def exNoHarvestDF : DF := { recs := [exRNoHarvestW, exRNoHarvest], extraCols := [] }

/-- A fresh frame holding the spec's three-record training set. -/
def exDF : DF := { recs := exRecords, extraCols := [] }

/-- A frame whose records all share the single crop type Wheat. -/
def exSingleCropDF : DF := { recs := [exR1, exR3], extraCols := [] }

/-- A single-leaf constant forest (every prediction is 200), of the kind
a random forest learns from a constant-target training set. -/
def exConstForest : List DTree := [DTree.leaf [200, 200]]

/-- A learner oracle returning that constant forest. -/
def exLearnConst : Learner := fun _ _ _ => exConstForest

/-- A trained `app.py` model over the spec's three-record set whose
single-leaf forest predicts the mean 200 of the training targets. -/
def exAppModel : AppModel :=
  { featureNames := featureColumnsApp exRecords, forest := [DTree.leaf [200, 150, 250]] }

/-- A scenario with a negative duration, as in the spec's §8 test. -/
def exNegScenario : Scenario :=
  { areaId := 1, cropType := "Wheat", durationDays := -5, totalCost := 1000 }

/-- An ordinary Wheat scenario drawn from the training ranges. -/
def exScenario : Scenario :=
  { areaId := 1, cropType := "Wheat", durationDays := 90, totalCost := 500 }

/-- A scenario whose crop type was never seen during training. -/
def exRiceScenario : Scenario :=
  { areaId := 1, cropType := "Rice", durationDays := 90, totalCost := 500 }

/-- A learner oracle whose output depends on the seed it is handed:
seed 0 yields a single-leaf forest predicting 200, any other seed one
predicting 150 — both batches are values of `trainY exRecords`, so both
forests are realizable fits of the same records. -/
def exSeedLearn : Learner :=
  fun seed _ _ => if seed = 0 then [DTree.leaf [200]] else [DTree.leaf [150]]

/-- The `app.py` model fitted with ambient entropy 0. -/
def exModelA : AppModel :=
  { featureNames := featureColumnsApp exRecords, forest := [DTree.leaf [200]] }

/-- The `app.py` model fitted with ambient entropy 1. -/
def exModelB : AppModel :=
  { featureNames := featureColumnsApp exRecords, forest := [DTree.leaf [150]] }

/-- A model whose single tree's leaf batch is a strict sub-multiset of
the training targets, for the bounds witness. -/
def exBoundModel : FamyModel :=
  { cats := ["Corn", "Wheat"], forest := [DTree.leaf [150, 250]] }

/-- A lower bound on every element of a list bounds its sum from below. -/
theorem mul_length_le_sum (l : List Rat) (a : Rat) (h : ∀ x ∈ l, a ≤ x) :
    a * (l.length : Rat) ≤ l.sum := by
  induction l with
  | nil => simp
  | cons x xs ih =>
    have hx := h x (List.mem_cons_self x xs)
    have hxs := ih (fun z hz => h z (List.mem_cons_of_mem _ hz))
    simp only [List.length_cons, List.sum_cons]
    push_cast
    nlinarith

/-- An upper bound on every element of a list bounds its sum from above. -/
theorem sum_le_mul_length (l : List Rat) (b : Rat) (h : ∀ x ∈ l, x ≤ b) :
    l.sum ≤ b * (l.length : Rat) := by
  induction l with
  | nil => simp
  | cons x xs ih =>
    have hx := h x (List.mem_cons_self x xs)
    have hxs := ih (fun z hz => h z (List.mem_cons_of_mem _ hz))
    simp only [List.length_cons, List.sum_cons]
    push_cast
    nlinarith

/-- The mean of a nonempty list lies between any bounds enclosing all of
its elements. -/
theorem mean_within_bounds (l : List Rat) (hne : l ≠ []) (a b : Rat)
    (h : ∀ x ∈ l, a ≤ x ∧ x ≤ b) :
    a ≤ l.sum / (l.length : Rat) ∧ l.sum / (l.length : Rat) ≤ b := by
  have hn : (0 : Rat) < (l.length : Rat) := by
    exact_mod_cast List.length_pos.mpr hne
  constructor
  · rw [le_div_iff₀ hn]
    exact mul_length_le_sum l a (fun x hx => (h x hx).1)
  · rw [div_le_iff₀ hn]
    exact sum_le_mul_length l b (fun x hx => (h x hx).2)

/-- A fitted tree whose leaf batches are drawn from `y` evaluates, on any
row, to a value between any bounds enclosing all of `y`. -/
theorem eval_within_bounds (y : List Rat) (a b : Rat) (row : List Rat) (t : DTree)
    (hok : leafSamplesOK y t) (hy : ∀ v ∈ y, a ≤ v ∧ v ≤ b) :
    a ≤ DTree.eval row t ∧ DTree.eval row t ≤ b := by
  induction t with
  | leaf s =>
    exact mean_within_bounds s hok.1 a b (fun x hx => hy x (hok.2 x hx))
  | node i th l r ihl ihr =>
    simp only [DTree.eval]
    split
    · exact ihl hok.1
    · exact ihr hok.2

/-- A nonempty forest of such trees predicts within the same bounds. -/
theorem forestPredict_within_bounds (y : List Rat) (a b : Rat) (row : List Rat)
    (f : List DTree) (hne : f ≠ [])
    (hok : ∀ t ∈ f, leafSamplesOK y t) (hy : ∀ v ∈ y, a ≤ v ∧ v ≤ b) :
    a ≤ forestPredict f row ∧ forestPredict f row ≤ b := by
  have hl : f.map (DTree.eval row) ≠ [] := by
    intro hmap
    exact hne (List.eq_nil_of_map_eq_nil hmap)
  have hmem : ∀ x ∈ f.map (DTree.eval row), a ≤ x ∧ x ≤ b := by
    intro x hx
    rcases List.mem_map.mp hx with ⟨t, ht, rfl⟩
    exact eval_within_bounds y a b row t (hok t ht) hy
  have h := mean_within_bounds (f.map (DTree.eval row)) hl a b hmem
  rwa [List.length_map] at h

/-- Filtering an `orderedInsert` by an exact key keeps the inserted
element first among the matches when its key matches, because every
element the insertion skips over has a strictly smaller key than the
inserted one. -/
theorem filter_orderedInsert (q : Rat) (a : String × Rat) (l : List (String × Rat)) :
    (List.orderedInsert byPredictedProfit a l).filter (fun p => p.2 = q) =
      if a.2 = q then a :: l.filter (fun p => p.2 = q)
      else l.filter (fun p => p.2 = q) := by
  induction l with
  | nil =>
    by_cases ha : a.2 = q <;> simp [List.orderedInsert, ha]
  | cons b l ih =>
    by_cases hab : byPredictedProfit a b
    · by_cases ha : a.2 = q <;>
        simp [List.orderedInsert, if_pos hab, List.filter_cons, ha]
    · have hb : b.2 < a.2 := lt_of_not_le hab
      by_cases ha : a.2 = q
      · have hbq : ¬ b.2 = q := ha ▸ ne_of_lt hb
        simp [List.orderedInsert, if_neg hab, List.filter_cons, hbq, ih, ha]
      · by_cases hbq : b.2 = q <;>
          simp [List.orderedInsert, if_neg hab, List.filter_cons, hbq, ih, ha]

/-- `insertionSort` is stable: filtering by an exact key commutes with
sorting, so equal-key elements keep their relative order. -/
theorem filter_insertionSort (q : Rat) (l : List (String × Rat)) :
    (List.insertionSort byPredictedProfit l).filter (fun p => p.2 = q) =
      l.filter (fun p => p.2 = q) := by
  induction l with
  | nil => rfl
  | cons x l ih =>
    simp only [List.insertionSort]
    rw [filter_orderedInsert]
    by_cases hx : x.2 = q <;> simp [List.filter_cons, hx, ih]

/-- The pandas descending sort is stable as well: its two reversals
cancel on every run of equal keys. -/
theorem filter_pandasSortDesc (q : Rat) (xs : List (String × Rat)) :
    (pandasSortDesc xs).filter (fun p => p.2 = q) = xs.filter (fun p => p.2 = q) := by
  simp only [pandasSortDesc]
  rw [List.filter_reverse, filter_insertionSort, List.filter_reverse,
    List.reverse_reverse]

/-- C2 (amended): `prepare_model`'s explicit guard turns an empty record
collection, or one with fewer than two distinct crop types, into the
insufficient-data failure before anything else runs. -/
theorem prepare_model_guard_insufficient (learn : Learner) (e : Nat) (df : DF)
    (h : df.recs = [] ∨ (cropTypesInOrder df.recs).length < 2) :
    (prepare_model learn e df).1 = Except.error FitError.insufficientData := by
  simp only [prepare_model]
  rw [if_pos h]

/-- C2 witness: a two-record single-crop frame trips the guard. -/
theorem prepare_model_guard_insufficient_witness :
    (exSingleCropDF.recs = [] ∨ (cropTypesInOrder exSingleCropDF.recs).length < 2) ∧
    (prepare_model exLearnConst 0 exSingleCropDF).1 =
      Except.error FitError.insufficientData :=
  ⟨Or.inr (by with_unfolding_all decide),
   prepare_model_guard_insufficient exLearnConst 0 exSingleCropDF
     (Or.inr (by with_unfolding_all decide))⟩

/-- C2 counterexample: a nonempty frame with two distinct crop types
whose rows all lack a harvest date (zero usable rows) passes the guard
and fails through the generic fit-crash path instead of raising the
insufficient-data failure the claim requires. -/
theorem prepare_model_unusable_rows_generic_failure :
    exNoHarvestDF.recs ≠ [] ∧
    (cropTypesInOrder exNoHarvestDF.recs).length = 2 ∧
    (∀ r ∈ exNoHarvestDF.recs, r.harvestDate = none) ∧
    (prepare_model exLearnConst 0 exNoHarvestDF).1 = Except.error FitError.fitCrash ∧
    ¬ (prepare_model exLearnConst 0 exNoHarvestDF).1 =
        Except.error FitError.insufficientData := by
  refine ⟨by with_unfolding_all decide, by with_unfolding_all rfl,
    by with_unfolding_all decide, by with_unfolding_all rfl, ?_⟩
  intro hcontra
  rw [show (prepare_model exLearnConst 0 exNoHarvestDF).1 = Except.error FitError.fitCrash
    from by with_unfolding_all rfl] at hcontra
  exact absurd (Except.error.inj hcontra) (by decide)

/-- C3 (code bug): the training table's columns place the sorted
indicator columns (`Corn` before `Wheat`) after the numeric columns, but
the prediction form's scenario row places the selected crop's indicator
first and back-fills the rest, yielding a different column order for the
same frozen schema; and a scenario with an unseen crop type acquires an
extra indicator column instead of all-zero indicators. -/
theorem scenario_row_schema_mismatch :
    featureColumnsApp exRecords =
      ["area_id", "duration_days", "total_cost", "crop_type_Corn", "crop_type_Wheat"] ∧
    scenarioColumnsApp (cropTypesInOrder exRecords) exScenario =
      ["area_id", "duration_days", "total_cost", "crop_type_Wheat", "crop_type_Corn"] ∧
    scenarioColumnsApp (cropTypesInOrder exRecords) exScenario ≠ featureColumnsApp exRecords ∧
    (scenarioColumnsApp (cropTypesInOrder exRecords) exRiceScenario).length =
      (featureColumnsApp exRecords).length + 1 :=
  ⟨by with_unfolding_all rfl, by with_unfolding_all rfl, by with_unfolding_all decide,
   by with_unfolding_all rfl⟩

/-- C4: on the spec's three-record vector the feature table has exactly 3
rows, indicator columns for Corn and Wheat, target vector
`[200, 150, 250]` in input order, and the training target is revenue
minus the sum of the five cost fields. -/
theorem buildTrainingTable_spec_vector :
    (trainX exRecords).length = 3 ∧
    dummyColumns exRecords = ["crop_type_Corn", "crop_type_Wheat"] ∧
    trainY exRecords = [200, 150, 250] ∧
    trainX exRecords =
      [[some 1, some 90, some 500, some 0, some 1],
       [some 1, some 100, some 600, some 1, some 0],
       [some 1, some 95, some 550, some 0, some 1]] ∧
    (∀ r : CropCycleRecord,
      profit r = r.totalRevenue -
        (r.seedCost + r.fertilizerCost + r.laborCost + r.equipmentCost + r.otherCosts)) :=
  ⟨rfl, by with_unfolding_all rfl, by with_unfolding_all decide,
   by with_unfolding_all decide, fun _ => rfl⟩

/-- C5 counterexample: on three records of which one lacks a harvest
date, the feature table still has three rows — the unusable record is
not excluded; its `NaN` duration survives into the table. -/
theorem trainX_keeps_unusable_rows :
    exMixedRecords.length = 3 ∧
    (exMixedRecords.filter (fun r => r.harvestDate.isSome)).length = 2 ∧
    (trainX exMixedRecords).length = 3 ∧
    hasNaN (trainX exMixedRecords) = true :=
  ⟨by with_unfolding_all rfl, by with_unfolding_all rfl, rfl, by with_unfolding_all rfl⟩

/-- C5 (amended): the feature table and target vector always have one
entry per input record, in input order (1:1 lockstep, nothing dropped);
when some record lacks a harvest date the whole fit fails with the
generic crash instead of dropping that record. -/
theorem training_rows_lockstep (recs : List CropCycleRecord) :
    (trainX recs).length = recs.length ∧
    (trainY recs).length = recs.length ∧
    ((∃ r ∈ recs, r.harvestDate = none) →
      ∀ (learn : Learner) (e : Nat) (cols : List String),
        (train_prediction_model learn e { recs := recs, extraCols := cols }).1 =
          Except.error FitError.fitCrash) := by
  refine ⟨List.length_map recs _, List.length_map recs _, ?_⟩
  rintro ⟨r, hr, hnone⟩ learn e cols
  have hnan : hasNaN (trainX recs) = true := by
    simp only [hasNaN, trainX, List.any_eq_true, List.mem_map]
    exact ⟨_, ⟨r, hr, rfl⟩, by simp [featureRowApp, duration_days, hnone]⟩
  simp only [train_prediction_model]
  rw [if_pos (Or.inr hnan)]

/-- C5 witness: the lockstep theorem applied to the mixed three-record
collection. -/
theorem training_rows_lockstep_witness :
    (trainX exMixedRecords).length = exMixedRecords.length ∧
    (train_prediction_model exLearnConst 0 { recs := exMixedRecords, extraCols := [] }).1 =
      Except.error FitError.fitCrash :=
  ⟨(training_rows_lockstep exMixedRecords).1,
   (training_rows_lockstep exMixedRecords).2.2 (by with_unfolding_all decide)
     exLearnConst 0 []⟩

/-- C6 counterexample: a scenario with duration −5 is not rejected — the
prediction path evaluates the estimator on it and returns its value. -/
theorem predict_negative_duration_accepted :
    exNegScenario.durationDays = -5 ∧
    predict_profit (some exAppModel) (cropTypesInOrder exRecords) exNegScenario =
      Except.ok 200 :=
  ⟨rfl, by with_unfolding_all rfl⟩

/-- C6 (amended): the prediction path performs no range validation at
all: with a trained model every scenario — negative fields included — is
encoded and handed to the estimator, whose value is returned. -/
theorem predict_profit_no_validation (m : AppModel) (crops : List String) (s : Scenario) :
    predict_profit (some m) crops s =
      Except.ok (forestPredict m.forest (scenarioValuesApp crops s)) := rfl

/-- C7 counterexample: `app.py`'s estimator is built without
`random_state`, and two fits of the same records under different ambient
entropy can return models (both realizable leaf-batch forests over the
same training targets) whose predictions differ. -/
theorem train_model_entropy_dependent :
    appRFConfig.randomState = none ∧
    (∀ t ∈ exModelA.forest, leafSamplesOK (trainY exRecords) t) ∧
    (∀ t ∈ exModelB.forest, leafSamplesOK (trainY exRecords) t) ∧
    (train_prediction_model exSeedLearn 0 exDF).1 = Except.ok exModelA ∧
    (train_prediction_model exSeedLearn 1 exDF).1 = Except.ok exModelB ∧
    predict_profit (some exModelA) (cropTypesInOrder exRecords) exScenario ≠
      predict_profit (some exModelB) (cropTypesInOrder exRecords) exScenario := by
  refine ⟨rfl, by with_unfolding_all decide, by with_unfolding_all decide,
    by with_unfolding_all rfl, by with_unfolding_all rfl, ?_⟩
  intro h
  rw [show predict_profit (some exModelA) (cropTypesInOrder exRecords) exScenario =
        Except.ok (200 : Rat) from by with_unfolding_all rfl,
      show predict_profit (some exModelB) (cropTypesInOrder exRecords) exScenario =
        Except.ok (150 : Rat) from by with_unfolding_all rfl] at h
  have h2 : (200 : Rat) = 150 := Except.ok.inj h
  norm_num at h2

/-- C7 (amended): the pipeline variant passes the fixed seed 42 to the
estimator, so `prepare_model` is independent of the ambient entropy:
two fits of the same records agree exactly. -/
theorem prepare_model_entropy_independent (learn : Learner) (e e' : Nat) (df : DF) :
    famyRFConfig.randomState = some 42 ∧
    prepare_model learn e df = prepare_model learn e' df :=
  ⟨rfl, rfl⟩

/-- C8: with no trained model (no successful fit yet), the prediction
attempt always fails with the untrained-model failure, for every
scenario. -/
theorem predict_untrained_fails (crops : List String) (s : Scenario) :
    predict_profit none crops s = Except.error PredictFailure.modelNotTrained := rfl

/-- C9 counterexample: fitting mutates the caller's frame — after
`train_prediction_model` returns, the frame differs from the one passed
in by the three derived columns assigned into it. -/
theorem fit_mutates_caller_frame :
    (train_prediction_model exLearnConst 0 exDF).2 ≠ exDF ∧
    (train_prediction_model exLearnConst 0 exDF).2.extraCols =
      ["duration_days", "total_cost", "profit"] :=
  ⟨by with_unfolding_all decide, by with_unfolding_all rfl⟩

/-- C9 (amended): the mutation is exactly the appended derived columns:
the records themselves are never altered, and `prepare_model` likewise
leaves the records untouched. -/
theorem fit_adds_columns_keeps_records (learn : Learner) (e : Nat) (df : DF) :
    (train_prediction_model learn e df).2.recs = df.recs ∧
    (train_prediction_model learn e df).2.extraCols =
      df.extraCols ++ ["duration_days", "total_cost", "profit"] ∧
    (prepare_model learn e df).2.recs = df.recs := by
  refine ⟨?_, ?_, ?_⟩
  · simp only [train_prediction_model]
    split <;> rfl
  · simp only [train_prediction_model]
    split <;> rfl
  · simp only [prepare_model]
    split
    · rfl
    · split <;> rfl

/-- C10: for every trained model whose forest is a realizable fit of the
training targets (nonempty, every leaf batch drawn from the targets) and
every scenario, the prediction lies between any bounds enclosing all
training profits — in particular between their minimum and maximum, so it
can be negative only if some training profit is. -/
theorem predict_within_training_profits (recs : List CropCycleRecord) (m : FamyModel)
    (s : Scenario) (lo hi : Rat) (hne : m.forest ≠ [])
    (hfit : ∀ t ∈ m.forest, leafSamplesOK (trainY recs) t)
    (hb : ∀ v ∈ trainY recs, lo ≤ v ∧ v ≤ hi) :
    lo ≤ predictPipeline m s ∧ predictPipeline m s ≤ hi :=
  forestPredict_within_bounds (trainY recs) lo hi (pipelineRow m.cats s) m.forest hne hfit hb

/-- C10 witness: a concrete realizable model over the spec's records,
with the training profits' actual extremes 150 and 250 as bounds. -/
theorem predict_within_training_profits_witness :
    (150 : Rat) ≤ predictPipeline exBoundModel exScenario ∧
    predictPipeline exBoundModel exScenario ≤ 250 :=
  predict_within_training_profits exRecords exBoundModel exScenario 150 250
    (by with_unfolding_all decide) (by with_unfolding_all decide)
    (by with_unfolding_all decide)

end SmartFarm
